import Mathlib

/-!
A shallow embedding of `pkg/cloud/openstack/machine/actuator.go` from the
machine-api-provider-openstack repository, together with theorems checking the
repository's natural-language specification against the code.

External collaborators (cloud clients, kube clients, template renderers) are
modelled as an `Env` record of oracle results; every external call the engine
makes is recorded in an effect trace, so that frame properties ("no instance
was created", "no status update was issued") can be stated as facts about the
trace.  Machine-record mutation is modelled by explicit state passing.
-/

namespace OSM

/-- A Go `error` value from a collaborator: only the message matters here. -/
structure GoErr where
  msg : String
  deriving DecidableEq, Repr

/-- The context value handed to a context-accepting external call:
either the externally supplied `ctx` argument of the entry point, or an
unconditioned background context (`context.TODO()` in the source). -/
inductive Ctx
  | external
  | background
  deriving DecidableEq, Repr

/-- A network interface entry inside an instance's per-network address list
(`addr` / `version` of the JSON blob decoded in `getIPsFromInstance`).
The Go code decodes `version` as a float and compares it with `4.0`; the
values are integral, so it is carried as a natural number here. -/
structure NetIf where
  addr : String
  version : Nat
  iftype : String
  deriving DecidableEq, Repr

/-- The cloud provider's view of a running compute resource. -/
structure Instance where
  id : String
  name : String
  image : String
  flavor : String
  status : String
  az : String
  accessIPv4 : String
  addresses : List (String × List NetIf)
  deriving DecidableEq, Repr

/-- A neutron network (only the fields the actuator reads). -/
structure Network where
  id : String
  name : String
  deriving DecidableEq, Repr

/-- A neutron subnet (only the fields the actuator reads). -/
structure Subnet where
  id : String
  networkID : String
  deriving DecidableEq, Repr

/-- A `corev1.NodeAddress`: an address type tag plus the address itself. -/
structure NodeAddress where
  addrType : String
  address : String
  deriving DecidableEq, Repr

/-- The reason carried by a `maoMachine.MachineError`. -/
inductive ErrReasonK
  | invalidConfiguration
  | createError
  | updateError
  | deleteError
  deriving DecidableEq, Repr

/-- An error returned by an engine entry point: either a typed machine error
(`maoMachine.MachineError`) or a plain wrapped Go error (`fmt.Errorf`). -/
inductive Err
  | machineErr (reason : ErrReasonK) (msg : String)
  | goErr (msg : String)
  deriving DecidableEq, Repr

/-- The machine's status block (error reason/message and observed addresses). -/
structure MachineStatus where
  errorReason : Option ErrReasonK
  errorMessage : Option String
  addresses : List NodeAddress
  deriving DecidableEq, Repr

/-- The metadata embedded in the machine's *spec* (`machine.Spec.ObjectMeta`),
compared wholesale by `requiresUpdate`. -/
structure SpecMeta where
  labels : List (String × String)
  anns : List (String × String)
  deriving DecidableEq, Repr

/-- A reference to the user-data secret (`providerSpec.UserDataSecret`). -/
structure SecretRef where
  name : String
  ns : String
  deriving DecidableEq, Repr

/-- The decoded provider spec (`openstackconfigv1.OpenstackProviderSpec`),
restricted to the fields the actuator reads. `rootVolume` is the presence of
a root-volume section (its contents are not read by this file). -/
structure ProviderSpec where
  image : String
  flavor : String
  availabilityZone : String
  primarySubnet : String
  floatingIP : String
  userDataSecret : Option SecretRef
  rootVolume : Bool
  deriving DecidableEq, Repr

instance {ε α : Type} [DecidableEq ε] [DecidableEq α] : DecidableEq (Except ε α) := fun a b =>
  match a, b with
  | .ok x, .ok y =>
    if h : x = y then isTrue (by rw [h]) else isFalse (by intro hc; cases hc; exact h rfl)
  | .error x, .error y =>
    if h : x = y then isTrue (by rw [h]) else isFalse (by intro hc; cases hc; exact h rfl)
  | .ok _, .error _ => isFalse (by intro hc; cases hc)
  | .error _, .ok _ => isFalse (by intro hc; cases hc)

/-- The machine record. `name`/`ns`/`labels`/`anns` model the machine's
ObjectMeta (`anns` are its string-map annotated key/value pairs); `specMeta`
and `rawProviderSpec` model `machine.Spec.ObjectMeta` and the raw
`machine.Spec.ProviderSpec` payload; `providerSpec` carries the result of the
external decoder `openstackconfigv1.MachineSpecFromProviderSpec` applied to
that payload (the decoder itself lives outside the embedded file). -/
structure Machine where
  name : String
  ns : String
  labels : List (String × String)
  anns : List (String × String)
  specMeta : SpecMeta
  rawProviderSpec : String
  providerSpec : Except GoErr ProviderSpec
  status : MachineStatus
  deriving DecidableEq, Repr

/-! ### Go string-map helpers (assoc-list model of Go maps) -/

/-- Go map read `m[k]`: the stored value, or the zero value `""`. -/
def mapGet (m : List (String × String)) (k : String) : String :=
  match m.find? (fun p => p.1 == k) with
  | some p => p.2
  | none => ""

/-- Go map membership `_, ok := m[k]`. -/
def mapHas (m : List (String × String)) (k : String) : Bool :=
  (m.find? (fun p => p.1 == k)).isSome

/-- Go map write `m[k] = v`: replace the binding of `k`, or append one. -/
def mapSet : List (String × String) → String → String → List (String × String)
  | [], k, v => [(k, v)]
  | p :: rest, k, v => if p.1 == k then (k, v) :: rest else p :: mapSet rest k v

/-! ### Constants from the source (and from the repository files it imports) -/

def userDataKey : String := "userData"
def disableTemplatingKey : String := "disableTemplating"
def postprocessorKey : String := "postprocessor"
def timeoutInstanceDelete : Int := 5
def machineInstanceStateKey : String := "machine.openshift.io/instance-state"
def errorState : String := "ERROR"
def clusterLabelKey : String := "machine.openshift.io/cluster-api-cluster"

/-- Modelled from the spec: the instance-identifier annotation key defined in
`pkg/cloud/openstack` (outside the embedded file). -/
def openstackIdKey : String := "openstack-resourceId"

/-- Modelled from the spec: the resolved-primary-IP annotation key defined in
`pkg/cloud/openstack` (outside the embedded file). -/
def openstackIPKey : String := "openstack-ip-address"

/-- Modelled from the spec: the key under which a serialized copy of the
machine is recorded (`InstanceStatusAnnotationKey`, defined in the
instance-status bookkeeping file outside the embedded file). -/
def instanceStatusKey : String := "instance-status"

/-- Modelled from the spec: the well-known region label key from the
machine-api-operator package. -/
def machineRegionLabelKey : String := "machine.openshift.io/region"

/-- Modelled from the spec: the well-known availability-zone label key from
the machine-api-operator package. -/
def machineAZLabelKey : String := "machine.openshift.io/zone"

/-- Modelled from the spec: the well-known instance-type label key from the
machine-api-operator package. -/
def machineTypeLabelKey : String := "machine.openshift.io/instance-type"

/-! ### `getTimeout` (source lines 107-115) and the Update timeout -/

/-- Go `strconv.Atoi`: optional sign, decimal digits only, int64 range;
any other input (or out-of-range value) yields an error, modelled as `none`. -/
def goAtoi (s : String) : Option Int :=
  let signed : Bool × List Char :=
    match s.toList with
    | '+' :: rest => (false, rest)
    | '-' :: rest => (true, rest)
    | cs => (false, cs)
  let neg := signed.1
  let ds := signed.2
  if ds.isEmpty then none
  else if ds.all Char.isDigit then
    let n : Nat := ds.foldl (fun a c => a * 10 + (c.toNat - 48)) 0
    if neg then
      if n ≤ 2 ^ 63 then some (-(n : Int)) else none
    else
      if n < 2 ^ 63 then some (n : Int) else none
  else none

/-- `getTimeout` from the source: the environment value `v` (Go `os.Getenv`
returns `""` when the variable is unset); the inner `timeout, err :=` shadows
the argument, so a present-but-unparsable value falls through to the
argument's value. -/
def getTimeout (v : String) (timeout : Int) : Int :=
  if v ≠ "" then
    match goAtoi v with
    | some t => t
    | none => timeout
  else timeout

/-- One minute in nanoseconds (`time.Minute`). -/
def timeMinute : Int := 60000000000

/-- Two's-complement wrap into the int64 range, as Go's signed 64-bit
multiplication behaves on overflow. -/
def wrapInt64 (n : Int) : Int :=
  (n + 2 ^ 63) % 2 ^ 64 - 2 ^ 63

/-- The delete-confirmation timeout computed by `Update` (source lines
476-477): `getTimeout("CLUSTER_API_OPENSTACK_INSTANCE_DELETE_TIMEOUT", 5)`
multiplied by `time.Minute`, in nanoseconds. `time.Duration` is an int64, so
the product wraps on overflow. `v` is the value of that environment
variable. -/
def updateInstanceDeleteTimeout (v : String) : Int :=
  wrapInt64 (getTimeout v timeoutInstanceDelete * timeMinute)

/-! ### `requiresUpdate` (source lines 715-723) -/

/-- `requiresUpdate` from the source: nil references require recreation;
otherwise the machines' spec metadata, raw provider-spec payloads and names
are compared; the status blocks are never consulted. -/
def requiresUpdate (a b : Option Machine) : Bool :=
  match a, b with
  | none, _ => true
  | _, none => true
  | some a, some b =>
    !(a.specMeta == b.specMeta) || !(a.rawProviderSpec == b.rawProviderSpec) ||
      !(a.name == b.name)

/-! ### A model of Go `net.ParseIP` (used by `getIPsFromInstance`)

The source only tests `net.ParseIP(s) != nil`, so the model returns a Bool.
It mirrors the structure of the Go standard library parser of the repository's
era: the first `.` or `:` selects the dotted-decimal or the hex-groups form;
`dtoi`/`xtoi` accumulate digits with an overflow bound of `0xFFFFFF`. -/

/-- Hexadecimal digit value, as accepted by Go's `xtoi`. -/
def hexDigitVal (c : Char) : Option Nat :=
  if '0' ≤ c ∧ c ≤ '9' then some (c.toNat - 48)
  else if 'a' ≤ c ∧ c ≤ 'f' then some (c.toNat - 87)
  else if 'A' ≤ c ∧ c ≤ 'F' then some (c.toNat - 55)
  else none

/-- Go `dtoi`: the leading decimal-digit run and its value; fails on an empty
run or when the accumulated value reaches the bound `0xFFFFFF`. -/
def goDtoi (cs : List Char) : Option (Nat × List Char) :=
  let ds := cs.takeWhile Char.isDigit
  if ds.isEmpty then none
  else
    let n := ds.foldl (fun a c => a * 10 + (c.toNat - 48)) 0
    if n < 0xFFFFFF then some (n, cs.dropWhile Char.isDigit) else none

/-- Go `xtoi`: the leading hex-digit run and its value; fails on an empty run
or when the accumulated value reaches the bound `0xFFFFFF`. -/
def goXtoi (cs : List Char) : Option (Nat × List Char) :=
  let ds := cs.takeWhile (fun c => (hexDigitVal c).isSome)
  if ds.isEmpty then none
  else
    let n := ds.foldl (fun a c => a * 16 + (hexDigitVal c).getD 0) 0
    if n < 0xFFFFFF then some (n, cs.dropWhile (fun c => (hexDigitVal c).isSome)) else none

/-- Go `parseIPv4` field loop: `k` fields remain; a field after the first is
preceded by a `.`; each field is a decimal run of value at most 255; the
input must be consumed exactly. -/
def v4go : Nat → Bool → List Char → Bool
  | 0, _, cs => cs.isEmpty
  | k + 1, first, cs =>
    if cs.isEmpty then false
    else
      let next : Option (List Char) :=
        if first then some cs
        else match cs with
          | '.' :: r => some r
          | _ => none
      match next with
      | none => false
      | some cs2 =>
        match goDtoi cs2 with
        | none => false
        | some (n, rest) => n ≤ 0xFF && v4go k false rest

/-- Go `parseIPv4` on a character list. -/
def goParseIPv4 (cs : List Char) : Bool := v4go 4 true cs

/-- End-of-input check of Go `parseIPv6`: with fewer than 16 bytes filled an
ellipsis must have been seen; with all 16 filled it must not have been. -/
def v6finish (i : Nat) (ell : Bool) : Bool :=
  if i < 16 then ell else !ell

/-- The group loop of Go `parseIPv6`: `i` bytes filled so far, `ell` records
whether a `::` has been consumed. Each iteration reads one hex group, then
either stops, consumes a `:` separator, or consumes a `::` ellipsis; a group
followed by `.` switches to an embedded dotted-quad tail. -/
def v6go : Nat → Nat → Bool → List Char → Bool
  | 0, _, _, _ => false
  | fuel + 1, i, ell, cs =>
    if 16 ≤ i then cs.isEmpty && v6finish i ell
    else
      match goXtoi cs with
      | none => false
      | some (n, rest) =>
        if 0xFFFF < n then false
        else if rest.head? = some '.' then
          (ell || i == 12) && decide (i + 4 ≤ 16) && goParseIPv4 cs && v6finish (i + 4) ell
        else
          if rest.isEmpty then v6finish (i + 2) ell
          else
            match rest with
            | ':' :: r2 =>
              if r2.isEmpty then false
              else
                match r2 with
                | ':' :: r3 =>
                  if ell then false
                  else if r3.isEmpty then v6finish (i + 2) true
                  else v6go fuel (i + 2) true r3
                | _ => v6go fuel (i + 2) ell r2
            | _ => false

/-- Go `parseIPv6` (with the leading `::` special case). -/
def goParseIPv6 (cs : List Char) : Bool :=
  match cs with
  | ':' :: ':' :: rest => if rest.isEmpty then true else v6go 20 0 true rest
  | _ => v6go 20 0 false cs

/-- Go `splitHostZone`: drop a `%zone` suffix at the last `%` when that `%`
is not the first character. -/
def splitHostZone (cs : List Char) : List Char :=
  match ((List.range cs.length).filter (fun j => cs.get? j == some '%')).getLast? with
  | some j => if 0 < j then cs.take j else cs
  | none => cs

/-- Go `net.ParseIP(s) != nil`: the first `.` or `:` of `s` selects the
dotted-decimal or the hex-groups parser; a string with neither is rejected. -/
def goParseIPOk (s : String) : Bool :=
  match s.toList.find? (fun c => c == '.' || c == ':') with
  | some '.' => goParseIPv4 s.toList
  | some ':' => goParseIPv6 (splitHostZone s.toList)
  | _ => false

/-! ### `getIPsFromInstance` (source lines 504-538) -/

/-- `getIPsFromInstance` from the source: a non-empty, parseable top-level
`AccessIPv4` short-circuits to a single-entry map keyed by `""`; otherwise
each network's interface list is filtered down to its version-4 entries
(later entries overwrite earlier ones for the same network); an empty result
map is an error. The JSON marshal/unmarshal round trip of the source is the
identity on this structured model. -/
def getIPsFromInstance (inst : Instance) : Except GoErr (List (String × String)) :=
  if inst.accessIPv4 ≠ "" ∧ goParseIPOk inst.accessIPv4 then
    .ok [("", inst.accessIPv4)]
  else
    let addrMap := inst.addresses.foldl
      (fun acc p => p.2.foldl
        (fun acc2 nif => if nif.version == 4 then mapSet acc2 p.1 nif.addr else acc2) acc)
      []
    if addrMap.isEmpty then .error ⟨"extract IP from instance err"⟩
    else .ok addrMap

/-! ### The collaborator environment and the effect trace -/

/-- One external call made by the engine. Calls that accept a Go context in
the source carry the context they were given. -/
inductive Effect
  | infraGet (ctx : Ctx)
  | getProviderClientCall
  | newComputeService
  | newNetworkService
  | newNetworkClient
  | instanceStatusByName (name : String)
  | instanceListCall (name image flavor : String)
  | secretGet (ctx : Ctx) (ns name : String)
  | renderMasterScript
  | renderNodeScript (token : String)
  | generateToken
  | clientCreate (ctx : Ctx)
  | ctTranspile
  | createInstanceCall (name : String)
  | getOrCreateFloatingIP
  | getManagementPort
  | associateFloatingIP
  | eventf (msg : String)
  | clientUpdate (ctx : Ctx)
  | statusUpdate (ctx : Ctx) (addrs : List NodeAddress)
  | updateInstanceStatusCall
  | deleteInstanceCall (id : String)
  | subnetGet (id : String)
  | networkGet (id : String)
  | networksListByTag (tag : String)
  deriving DecidableEq, Repr

/-- Oracle results for every external collaborator call the embedded code can
make, plus the current cloud state `world` (the set of live instances).
Each `Except` field is the outcome the collaborator would produce if called. -/
structure Env where
  hasClient : Bool
  regionName : String
  infraGetRes : Except GoErr String
  providerClientRes : Except GoErr Unit
  computeServiceRes : Except GoErr Unit
  networkServiceRes : Except GoErr Unit
  networkClientRes : Except GoErr Unit
  instanceServiceRes : Except GoErr Unit
  imageExistsRes : Except GoErr Unit
  flavorExistsRes : Except GoErr Unit
  azExistsRes : Except GoErr Unit
  world : List Instance
  instanceStatusLookupErr : Option GoErr
  instanceListErr : Option GoErr
  secretGetRes : Except GoErr (List (String × String))
  masterScriptRes : Except GoErr String
  nodeScriptRes : Except GoErr String
  genTokenRes : Except GoErr Unit
  tokenID : String
  tokenSecretVal : String
  persistTokenRes : Except GoErr Unit
  ctRes : Except GoErr String
  newOsMachineRes : Except GoErr Unit
  createInstanceRes : Except GoErr Unit
  newInstanceId : String
  newInstanceStatus : String
  newInstanceAZ : String
  newInstanceAccessIPv4 : String
  newInstanceAddresses : List (String × List NetIf)
  fipRes : Except GoErr Unit
  mgmtPortRes : Except GoErr Unit
  associateRes : Except GoErr Unit
  clientUpdateRes : Except GoErr Unit
  statusUpdateRes : Except GoErr Unit
  updateInstanceStatusRes : Except GoErr Unit
  subnetGetRes : Except GoErr Subnet
  networkGetRes : Except GoErr Network
  listByTagRes : Except GoErr (List Network)
  deleteInstanceRes : Except GoErr Unit
  deriving DecidableEq, Repr

/-- Modelled from the spec: the compute collaborator's name lookup
(`GetInstanceStatusByName`, outside the embedded file) — query by name,
zero-or-more matches, first match wins. -/
def getInstanceStatusByName (env : Env) (world : List Instance) (name : String) :
    Except GoErr (Option Instance) :=
  match env.instanceStatusLookupErr with
  | some e => .error e
  | none => .ok (world.filter (fun i => i.name == name)).head?

/-- `instanceExists` from the source: decode the provider spec, build an
instance service, and list instances by name/image/flavor; the first match
wins (the list call itself is modelled from the spec's lookup contract). -/
def instanceExists (env : Env) (world : List Instance) (m : Machine) :
    Except GoErr (Option Instance) × List Effect :=
  match m.providerSpec with
  | .error e => (.error ⟨"Error getting the machine spec from the provider spec: " ++ e.msg⟩, [])
  | .ok spec =>
    match env.instanceServiceRes with
    | .error e => (.error ⟨"Error getting a new instance service from the machine: " ++ e.msg⟩, [])
    | .ok _ =>
      match env.instanceListErr with
      | some e => (.error ⟨"Error listing the instances: " ++ e.msg⟩,
          [.instanceListCall m.name spec.image spec.flavor])
      | none =>
        (.ok (world.filter
            (fun i => i.name == m.name && i.image == spec.image && i.flavor == spec.flavor)).head?,
          [.instanceListCall m.name spec.image spec.flavor])

/-- `validateMachine` from the source: decode the spec, build an instance
service, then check image (unless booting from a volume), flavor and
availability zone through the external service. -/
def validateMachine (env : Env) (m : Machine) : Except GoErr Unit :=
  match m.providerSpec with
  | .error e => .error ⟨"Error getting the machine spec from the provider spec: " ++ e.msg⟩
  | .ok spec =>
    match env.instanceServiceRes with
    | .error e => .error ⟨"Error getting a new instance service from the machine: " ++ e.msg⟩
    | .ok _ =>
      match (if spec.rootVolume then Except.ok () else env.imageExistsRes) with
      | .error e => .error e
      | .ok _ =>
        match env.flavorExistsRes with
        | .error e => .error e
        | .ok _ =>
          match env.azExistsRes with
          | .error e => .error e
          | .ok _ => .ok ()

/-- `handleMachineError` from the source: optionally emit a failure event;
when a record client is present, set the status error fields, force the
lifecycle-state marker to `ERROR`, and persist the machine with a background
context — a failed persist replaces the error with a plain wrapped one. -/
def handleMachineError (env : Env) (m : Machine) (reason : ErrReasonK) (msg : String)
    (eventAction : String) : Err × Machine × List Effect :=
  let evTrace : List Effect := if eventAction ≠ "" then [.eventf ("Failed" ++ eventAction)] else []
  if env.hasClient then
    let m' := { m with
      status := { m.status with errorReason := some reason, errorMessage := some msg },
      anns := mapSet m.anns machineInstanceStateKey errorState }
    match env.clientUpdateRes with
    | .error ue => (.goErr ("unable to update machine status: " ++ ue.msg), m',
        evTrace ++ [.clientUpdate .background])
    | .ok _ => (.machineErr reason msg, m', evTrace ++ [.clientUpdate .background])
  else (.machineErr reason msg, m, evTrace)

/-- `setMachineLabels` from the source: when any of the three well-known
labels is still empty, set region, availability zone and instance type. -/
def setMachineLabels (m : Machine) (region az flavor : String) : Machine :=
  if mapGet m.labels machineRegionLabelKey ≠ "" ∧ mapGet m.labels machineAZLabelKey ≠ "" ∧
      mapGet m.labels machineTypeLabelKey ≠ "" then m
  else
    let ls := mapSet (mapSet (mapSet m.labels machineRegionLabelKey region)
      machineAZLabelKey az) machineTypeLabelKey flavor
    { m with labels := ls }

/-! ### Primary-address resolution (source lines 540-626) -/

/-- `getNetworkBySubnet` from the source: fetch the subnet, then fetch its
owning network. -/
def getNetworkBySubnet (env : Env) (subnetID : String) :
    Except GoErr Network × List Effect :=
  match env.subnetGetRes with
  | .error _ => (.error ⟨"Could not get subnet " ++ subnetID⟩, [.subnetGet subnetID])
  | .ok subnet =>
    match env.networkGetRes with
    | .error _ => (.error ⟨"Could not get network " ++ subnet.networkID⟩,
        [.subnetGet subnetID, .networkGet subnet.networkID])
    | .ok nw => (.ok nw, [.subnetGet subnetID, .networkGet subnet.networkID])

/-- `getNetworkByPrimaryNetworkTag` from the source: list networks carrying
the tag; zero matches and more than one match are errors. -/
def getNetworkByPrimaryNetworkTag (env : Env) (tag : String) :
    Except GoErr Network × List Effect :=
  match env.listByTagRes with
  | .error e => (.error e, [.networksListByTag tag])
  | .ok nws =>
    match nws with
    | [] => (.error ⟨"There are no networks with primary network tag: " ++ tag⟩,
        [.networksListByTag tag])
    | [nw] => (.ok nw, [.networksListByTag tag])
    | _ => (.error ⟨"Too many networks with the same primary network tag: " ++ tag⟩,
        [.networksListByTag tag])

/-- `getPrimaryMachineIP` from the source: a single-entry address map wins
outright; otherwise the decoded spec's primary subnet (when set) selects its
owning network, else the legacy `<clusterInfraName>-primaryClusterNetwork`
tag must match exactly one network; finally the selected network's name is
looked up in the address map. -/
def getPrimaryMachineIP (env : Env) (mapAddr : List (String × String)) (m : Machine)
    (clusterInfraName : String) : Except Err String × List Effect :=
  match mapAddr with
  | [(_, addr)] => (.ok addr, [])
  | _ =>
    match m.providerSpec with
    | .error _ => (.error (.goErr ("Invalid provider spec for machine " ++ m.name)), [])
    | .ok config =>
      match env.providerClientRes with
      | .error e => (.error (.goErr e.msg), [.getProviderClientCall])
      | .ok _ =>
        match env.networkClientRes with
        | .error e => (.error (.goErr e.msg), [.getProviderClientCall, .newNetworkClient])
        | .ok _ =>
          let pre := [Effect.getProviderClientCall, Effect.newNetworkClient]
          let sel :=
            if config.primarySubnet ≠ "" then getNetworkBySubnet env config.primarySubnet
            else getNetworkByPrimaryNetworkTag env (clusterInfraName ++ "-primaryClusterNetwork")
          match sel with
          | (.error e, t1) => (.error (.goErr e.msg), pre ++ t1)
          | (.ok pn, t1) =>
            match mapAddr.find? (fun p => p.1 == pn.name) with
            | some p => (.ok p.2, pre ++ t1)
            | none => (.error (.goErr ("No primary network was found for the machine " ++ m.name)),
                pre ++ t1)

/-! ### Bootstrap token and the user-data pipeline (source lines 130-220, 751-772) -/

/-- `createBootstrapToken` from the source: generate a token, build the token
secret (whose id/secret halves are modelled from the spec's description of
the bootstrap-secret format), persist it with a background context, and
compose `id.secret`. The malformed-secret branch of the source aborts the
process and is unreachable for well-formed generated tokens, so it has no
model here. -/
def createBootstrapToken (env : Env) : Except GoErr String × List Effect :=
  match env.genTokenRes with
  | .error e => (.error e, [.generateToken])
  | .ok _ =>
    match env.persistTokenRes with
    | .error e => (.error e, [.generateToken, .clientCreate .background])
    | .ok _ => (.ok (env.tokenID ++ "." ++ env.tokenSecretVal),
        [.generateToken, .clientCreate .background])

/-- `getUserData` from the source: fetch the configured user-data secret (with
a background context); a non-empty payload with templating enabled renders
the master script when the machine's name is non-empty (the code's
control-identity check) and otherwise the node script with a freshly minted
bootstrap token; render failures run through the error funnel; a configured
postprocessor other than `ct` is an unknown-postprocessor error. -/
def getUserData (env : Env) (m : Machine) (spec : ProviderSpec) :
    Except Err String × Machine × List Effect :=
  let fetched : Except Err (String × Bool × Bool × String) × List Effect :=
    match spec.userDataSecret with
    | none => (.ok ("", false, false, ""), [])
    | some ref =>
      let ns := if ref.ns = "" then m.ns else ref.ns
      if ref.name = "" then (.error (.goErr "UserDataSecret name must be provided"), [])
      else
        match env.secretGetRes with
        | .error e => (.error (.goErr e.msg), [.secretGet .background ns ref.name])
        | .ok data =>
          if mapHas data userDataKey then
            (.ok (mapGet data userDataKey, mapHas data disableTemplatingKey,
                mapHas data postprocessorKey, mapGet data postprocessorKey),
              [.secretGet .background ns ref.name])
          else
            (.error (.goErr ("Machine's userdata secret did not contain key " ++ userDataKey)),
              [.secretGet .background ns ref.name])
  match fetched with
  | (.error e, t0) => (.error e, m, t0)
  | (.ok (userData, disableTempl, postprocess, postprocessor), t0) =>
    let rendered : Except Err String × Machine × List Effect :=
      if userData ≠ "" ∧ disableTempl = false then
        if m.name ≠ "" then
          match env.masterScriptRes with
          | .error e =>
            let (fe, m', t) := handleMachineError env m .createError
              ("error creating Openstack instance: " ++ e.msg) "Create"
            (.error fe, m', t0 ++ [.renderMasterScript] ++ t)
          | .ok s => (.ok s, m, t0 ++ [.renderMasterScript])
        else
          match createBootstrapToken env with
          | (.error e, tb) =>
            let (fe, m', t) := handleMachineError env m .createError
              ("error creating Openstack instance: " ++ e.msg) "Create"
            (.error fe, m', t0 ++ tb ++ t)
          | (.ok token, tb) =>
            match env.nodeScriptRes with
            | .error e =>
              let (fe, m', t) := handleMachineError env m .createError
                ("error creating Openstack instance: " ++ e.msg) "Create"
              (.error fe, m', t0 ++ tb ++ [.renderNodeScript token] ++ t)
            | .ok s => (.ok s, m, t0 ++ tb ++ [.renderNodeScript token])
      else (.ok userData, m, t0)
    match rendered with
    | (.error e, m', t) => (.error e, m', t)
    | (.ok ud, m', t) =>
      if postprocess then
        if postprocessor = "ct" then
          match env.ctRes with
          | .error e => (.error (.goErr ("Postprocessor error: " ++ e.msg)), m',
              t ++ [.ctTranspile])
          | .ok out => (.ok out, m', t ++ [.ctTranspile])
        else
          (.error (.goErr ("Postprocessor error: unknown postprocessor: " ++ postprocessor)),
            m', t)
      else (.ok ud, m', t)

/-! ### Annotation recording (source lines 657-713) -/

/-- The node address set computed by the annotation recorder: internal IP,
hostname and internal DNS. -/
def computedNodeAddresses (primaryIP nodeName : String) : List NodeAddress :=
  [⟨"InternalIP", primaryIP⟩, ⟨"Hostname", nodeName⟩, ⟨"InternalDNS", nodeName⟩]

/-- Modelled from the spec: the serialized machine recorded by the
instance-status bookkeeping (outside the embedded file); only its
non-emptiness is relevant to the embedded code. -/
def serializeMachine (m : Machine) : String := "machine:" ++ m.name

/-- Modelled from the spec: `updateInstanceStatus` (outside the embedded
file) records the serialized machine under the instance-status annotation key
and persists the machine record. -/
def updateInstanceStatus (env : Env) (m : Machine) :
    Except Err Unit × Machine × List Effect :=
  match env.updateInstanceStatusRes with
  | .error e => (.error (.goErr e.msg), m, [.updateInstanceStatusCall])
  | .ok _ => (.ok (), { m with anns := mapSet m.anns instanceStatusKey (serializeMachine m) },
      [.updateInstanceStatusCall])

/-- `updateAnnotation` from the source: record the instance identifier, then
re-fetch the instance by name/image/flavor (a missing instance would be a nil
dereference in the source, modelled as an error), extract its addresses,
resolve the primary address, record primary IP and instance state, persist
the machine (background context), and issue a status update carrying the
computed node address set only when that set differs from the one already
stored in the machine's status; finally the status block is restored and the
instance-status bookkeeping runs. -/
def updateMachineAnn (env : Env) (world : List Instance) (m : Machine)
    (instanceID : String) (clusterInfraName : String) :
    Except Err Unit × Machine × List Effect :=
  let statusCopy := m.status
  let m1 := { m with anns := mapSet m.anns openstackIdKey instanceID }
  match instanceExists env world m1 with
  | (.error _, t0) => (.error (.goErr "nil instance dereference"), m1, t0)
  | (.ok none, t0) => (.error (.goErr "nil instance dereference"), m1, t0)
  | (.ok (some inst), t0) =>
    match getIPsFromInstance inst with
    | .error e => (.error (.goErr e.msg), m1, t0)
    | .ok mapAddr =>
      match getPrimaryMachineIP env mapAddr m1 clusterInfraName with
      | (.error e, t1) => (.error e, m1, t0 ++ t1)
      | (.ok primaryIP, t1) =>
        let anns2 := mapSet (mapSet m1.anns openstackIPKey primaryIP)
          machineInstanceStateKey inst.status
        let m2 := { m1 with anns := anns2 }
        let t2 := t0 ++ t1 ++ [Effect.clientUpdate .background]
        match env.clientUpdateRes with
        | .error ue => (.error (.goErr ue.msg), m2, t2)
        | .ok _ =>
          let networkAddresses := computedNodeAddresses primaryIP m2.name
          if m2.status.addresses ≠ networkAddresses then
            match env.statusUpdateRes with
            | .error se => (.error (.goErr se.msg), m2,
                t2 ++ [.statusUpdate .background networkAddresses])
            | .ok _ =>
              let m3 := { m2 with status := statusCopy }
              let (r, m4, t4) := updateInstanceStatus env m3
              (r, m4, t2 ++ [.statusUpdate .background networkAddresses] ++ t4)
          else
            let m3 := { m2 with status := statusCopy }
            let (r, m4, t4) := updateInstanceStatus env m3
            (r, m4, t2 ++ t4)

/-! ### `Create` (source lines 242-366) -/

/-- The outcome of an engine entry point: the returned error value, the final
machine record, the final cloud state, and the trace of external calls. -/
structure OpOut where
  res : Except Err Unit
  machine : Machine
  world : List Instance
  trace : List Effect
  deriving DecidableEq, Repr

/-- Modelled from the spec: the compute collaborator's `CreateInstance`
(outside the embedded file) creates a server for the machine, carrying the
machine's name and the decoded spec's image and flavor. -/
def mkCreatedInstance (env : Env) (m : Machine) (spec : ProviderSpec) : Instance :=
  { id := env.newInstanceId, name := m.name, image := spec.image, flavor := spec.flavor,
    status := env.newInstanceStatus, az := env.newInstanceAZ,
    accessIPv4 := env.newInstanceAccessIPv4, addresses := env.newInstanceAddresses }

/-- `Create` from the source: fetch the cluster infrastructure (background
context) and check the cluster-membership label; resolve provider client and
compute/network services; decode and validate the spec; return success when a
live instance already exists by name; refuse to resurrect a machine whose
instance-status annotation is already set; otherwise render user data, create
the instance, optionally wire a floating IP, emit the Created event, set the
well-known labels and record the annotations. -/
def createMachine (env : Env) (ctx : Ctx) (m : Machine) : OpOut :=
  match env.infraGetRes with
  | .error e =>
    (⟨.error (.goErr ("Failed to retrieve cluster Infrastructure object: " ++ e.msg)), m,
      env.world, [.infraGet .background]⟩ : OpOut)
  | .ok clusterInfraName =>
    let t0 := [Effect.infraGet Ctx.background]
    if mapGet m.labels clusterLabelKey ≠ clusterInfraName then
      let (fe, m', t) := handleMachineError env m .invalidConfiguration
        "cluster-api-cluster label value is incorrect" "Create"
      (⟨.error fe, m', env.world, t0 ++ t⟩ : OpOut)
    else
      match env.providerClientRes with
      | .error e => (⟨.error (.goErr e.msg), m, env.world, t0 ++ [.getProviderClientCall]⟩ : OpOut)
      | .ok _ =>
        let t1 := t0 ++ [Effect.getProviderClientCall]
        match env.computeServiceRes with
        | .error e => (⟨.error (.goErr e.msg), m, env.world, t1 ++ [.newComputeService]⟩ : OpOut)
        | .ok _ =>
          let t2 := t1 ++ [Effect.newComputeService]
          match env.networkServiceRes with
          | .error e => (⟨.error (.goErr e.msg), m, env.world, t2 ++ [.newNetworkService]⟩ : OpOut)
          | .ok _ =>
            let t3 := t2 ++ [Effect.newNetworkService]
            match m.providerSpec with
            | .error _ =>
              let (fe, m', t) := handleMachineError env m .invalidConfiguration
                "Cannot unmarshal providerSpec field" "Create"
              (⟨.error fe, m', env.world, t3 ++ t⟩ : OpOut)
            | .ok spec =>
              match validateMachine env m with
              | .error e =>
                let (fe, m', t) := handleMachineError env m .invalidConfiguration
                  ("Machine validation failed: " ++ e.msg) "Create"
                (⟨.error fe, m', env.world, t3 ++ t⟩ : OpOut)
              | .ok _ =>
                match getInstanceStatusByName env env.world m.name with
                | .error e => (⟨.error (.goErr e.msg), m, env.world, t3 ++ [.instanceStatusByName m.name]⟩ : OpOut)
                | .ok (some _) => (⟨.ok (), m, env.world, t3 ++ [.instanceStatusByName m.name]⟩ : OpOut)
                | .ok none =>
                  let t4 := t3 ++ [Effect.instanceStatusByName m.name]
                  if mapGet m.anns instanceStatusKey ≠ "" then
                    let (fe, m', t) := handleMachineError env m .invalidConfiguration
                      "the instance has been destroyed for the machine, cannot recreate it"
                      "Create"
                    (⟨.error fe, m', env.world, t4 ++ t⟩ : OpOut)
                  else
                    match getUserData env m spec with
                    | (.error e, m', tu) => (⟨.error e, m', env.world, t4 ++ tu⟩ : OpOut)
                    | (.ok _, m', tu) =>
                      let t5 := t4 ++ tu
                      match env.newOsMachineRes with
                      | .error e => (⟨.error (.goErr e.msg), m', env.world, t5⟩ : OpOut)
                      | .ok _ =>
                        match env.createInstanceRes with
                        | .error e =>
                          let (fe, m'', t) := handleMachineError env m' .createError
                            ("error creating Openstack instance: " ++ e.msg) "Create"
                          (⟨.error fe, m'', env.world,
                            t5 ++ [.createInstanceCall m'.name] ++ t⟩ : OpOut)
                        | .ok _ =>
                          let inst := mkCreatedInstance env m' spec
                          let world1 := env.world ++ [inst]
                          let t6 := t5 ++ [Effect.createInstanceCall m'.name]
                          let fip : Option (Err × Machine × List Effect) × List Effect :=
                            if spec.floatingIP ≠ "" then
                              match env.fipRes with
                              | .error e =>
                                let (fe, m'', t) := handleMachineError env m' .createError
                                  ("Get floatingIP err: " ++ e.msg) "Create"
                                (some (fe, m'', [Effect.getOrCreateFloatingIP] ++ t),
                                  [Effect.getOrCreateFloatingIP])
                              | .ok _ =>
                                match env.mgmtPortRes with
                                | .error e =>
                                  let (fe, m'', t) := handleMachineError env m' .createError
                                    ("Get management port err: " ++ e.msg) "Create"
                                  (some (fe, m'',
                                      [Effect.getOrCreateFloatingIP, Effect.getManagementPort] ++ t),
                                    [Effect.getOrCreateFloatingIP, Effect.getManagementPort])
                                | .ok _ =>
                                  match env.associateRes with
                                  | .error e =>
                                    let (fe, m'', t) := handleMachineError env m' .createError
                                      ("Associate floatingIP err: " ++ e.msg) "Create"
                                    (some (fe, m'',
                                        [Effect.getOrCreateFloatingIP, Effect.getManagementPort,
                                          Effect.associateFloatingIP] ++ t),
                                      [Effect.getOrCreateFloatingIP, Effect.getManagementPort,
                                        Effect.associateFloatingIP])
                                  | .ok _ =>
                                    (none, [Effect.getOrCreateFloatingIP,
                                      Effect.getManagementPort, Effect.associateFloatingIP])
                            else (none, [])
                          match fip with
                          | (some (fe, m'', tf), _) =>
                            (⟨.error fe, m'', world1, t6 ++ tf⟩ : OpOut)
                          | (none, tf) =>
                            let t7 := t6 ++ tf ++ [Effect.eventf "Created"]
                            let m2 := setMachineLabels m' env.regionName inst.az spec.flavor
                            let (r, m3, ta) := updateMachineAnn env world1 m2 inst.id
                              clusterInfraName
                            (⟨r, m3, world1, t7 ++ ta⟩ : OpOut)

/-! ### `Delete` (source lines 368-405) -/

/-- Modelled from the spec: the compute collaborator's `DeleteInstance`
(outside the embedded file) destroys the given instance. -/
def removeInstance (world : List Instance) (inst : Instance) : List Instance :=
  world.filter (fun i => !(i.id == inst.id))

/-- `Delete` from the source: resolve provider client and compute service,
look the instance up by name (a lookup failure runs through the error
funnel); a missing instance is success with no further calls; otherwise
delete the instance (failure runs through the funnel) and emit the Deleted
event. -/
def deleteMachine (env : Env) (ctx : Ctx) (m : Machine) : OpOut :=
  match env.providerClientRes with
  | .error e => (⟨.error (.goErr e.msg), m, env.world, [.getProviderClientCall]⟩ : OpOut)
  | .ok _ =>
    match env.computeServiceRes with
    | .error e => (⟨.error (.goErr e.msg), m, env.world, [.getProviderClientCall, .newComputeService]⟩ : OpOut)
    | .ok _ =>
      let t0 := [Effect.getProviderClientCall, Effect.newComputeService,
        Effect.instanceStatusByName m.name]
      match getInstanceStatusByName env env.world m.name with
      | .error e =>
        let (fe, m', t) := handleMachineError env m .deleteError
          ("error getting OpenStack instance: " ++ e.msg) "Delete"
        (⟨.error fe, m', env.world, t0 ++ t⟩ : OpOut)
      | .ok none => (⟨.ok (), m, env.world, t0⟩ : OpOut)
      | .ok (some inst) =>
        match env.deleteInstanceRes with
        | .error e =>
          let (fe, m', t) := handleMachineError env m .deleteError
            ("error deleting Openstack instance: " ++ e.msg) "Delete"
          (⟨.error fe, m', env.world, t0 ++ [.deleteInstanceCall inst.id] ++ t⟩ : OpOut)
        | .ok _ =>
          (⟨.ok (), m, removeInstance env.world inst, t0 ++ [.deleteInstanceCall inst.id, .eventf "Deleted"]⟩ : OpOut)

/-! ### Helper lemmas -/

theorem mapGet_mapSet_self (m : List (String × String)) (k v : String) :
    mapGet (mapSet m k v) k = v := by
  induction m with
  | nil => simp [mapSet, mapGet]
  | cons p rest ih =>
    by_cases hp : p.1 = k
    · simp [mapSet, hp, mapGet]
    · simpa [mapSet, hp, mapGet, List.find?] using ih

theorem mapGet_mapSet_ne (m : List (String × String)) (k k' v : String) (h : k' ≠ k) :
    mapGet (mapSet m k v) k' = mapGet m k' := by
  have hkk : (k == k') = false := beq_eq_false_iff_ne.mpr (Ne.symm h)
  induction m with
  | nil => simp [mapSet, mapGet, List.find?, hkk]
  | cons p rest ih =>
    by_cases hp : p.1 = k
    · have hpk : (p.1 == k) = true := beq_iff_eq.mpr hp
      have hpk' : (p.1 == k') = false := beq_eq_false_iff_ne.mpr (hp ▸ Ne.symm h)
      simp [mapSet, hpk, mapGet, List.find?, hkk, hpk']
    · have hpk : (p.1 == k) = false := beq_eq_false_iff_ne.mpr hp
      by_cases hp' : p.1 = k'
      · have hpk' : (p.1 == k') = true := beq_iff_eq.mpr hp'
        simp [mapSet, hpk, mapGet, List.find?, hpk']
      · have hpk' : (p.1 == k') = false := beq_eq_false_iff_ne.mpr hp'
        simpa [mapSet, hpk, mapGet, List.find?, hpk'] using ih

theorem filter_and_nil {α : Type} (l : List α) (p q : α → Bool)
    (h : l.filter p = []) : l.filter (fun x => p x && q x) = [] := by
  induction l with
  | nil => rfl
  | cons a rest ih =>
    rw [List.filter] at h ⊢
    cases hp : p a with
    | true => rw [hp] at h; simp at h
    | false =>
      rw [hp] at h
      simp only [hp, Bool.false_and]
      exact ih h

theorem setMachineLabels_clusterLabel (m : Machine) (r a f : String) :
    mapGet (setMachineLabels m r a f).labels clusterLabelKey = mapGet m.labels clusterLabelKey := by
  unfold setMachineLabels
  split
  · rfl
  · simp only
    rw [mapGet_mapSet_ne _ _ _ _ (by decide), mapGet_mapSet_ne _ _ _ _ (by decide),
      mapGet_mapSet_ne _ _ _ _ (by decide)]

theorem setMachineLabels_fields (m : Machine) (r a f : String) :
    (setMachineLabels m r a f).name = m.name ∧
    (setMachineLabels m r a f).anns = m.anns ∧
    (setMachineLabels m r a f).providerSpec = m.providerSpec ∧
    (setMachineLabels m r a f).status = m.status := by
  unfold setMachineLabels
  split <;> simp

/-- Singleton address maps resolve without any collaborator call. -/
theorem getPrimaryMachineIP_singleton (env : Env) (k a : String) (m : Machine) (cin : String) :
    getPrimaryMachineIP env [(k, a)] m cin = (.ok a, []) := rfl

/-- A non-empty parseable `accessIPv4` short-circuits address extraction. -/
theorem getIPs_accessIPv4 (inst : Instance) (h : goParseIPOk inst.accessIPv4 = true) :
    getIPsFromInstance inst = .ok [("", inst.accessIPv4)] := by
  have hne : inst.accessIPv4 ≠ "" := by
    intro he
    rw [he] at h
    exact absurd h (by decide)
  simp [getIPsFromInstance, hne, h]

/-! ### Claim theorems -/

theorem wrapInt64_eq_self {x : Int} (h1 : -(2 ^ 63) ≤ x) (h2 : x < 2 ^ 63) :
    wrapInt64 x = x := by
  unfold wrapInt64
  have h3 : (0 : Int) ≤ x + 2 ^ 63 := by linarith
  have h4 : x + 2 ^ 63 < 2 ^ 64 := by
    have h5 : (2 : Int) ^ 64 = 2 ^ 63 + 2 ^ 63 := by norm_num
    linarith
  rw [Int.emod_eq_of_lt h3 h4]
  ring

/-- Counterexample for C7 as stated: the largest Atoi-parseable value wraps
in the source's int64 `time.Duration` product, so the poll timeout is minus
one minute, not that value interpreted in minutes. -/
theorem c7_counterexample :
    goAtoi "9223372036854775807" = some 9223372036854775807 ∧
    updateInstanceDeleteTimeout "9223372036854775807" = -60000000000 ∧
    updateInstanceDeleteTimeout "9223372036854775807" ≠
      9223372036854775807 * timeMinute := by
  refine ⟨by decide, by decide, by decide⟩

/-- Claim C7 (amended): the instance-delete-confirmation timeout used by
Update's replace-in-place poll equals the external configuration value times
one minute computed in the program's 64-bit duration arithmetic
(two's-complement wrap on overflow) when that value is present and parses as
an integer — in particular it equals the value interpreted in minutes exactly
whenever that product fits in int64 — and equals five minutes when the value
is missing (empty) or unparsable. -/
theorem c7_update_delete_timeout (v : String) :
    (∀ n : Int, v ≠ "" → goAtoi v = some n →
      updateInstanceDeleteTimeout v = wrapInt64 (n * timeMinute) ∧
      (-(2 ^ 63) ≤ n * timeMinute → n * timeMinute < 2 ^ 63 →
        updateInstanceDeleteTimeout v = n * timeMinute)) ∧
    ((v = "" ∨ goAtoi v = none) → updateInstanceDeleteTimeout v = 5 * timeMinute) := by
  constructor
  · intro n hne hp
    have hval : updateInstanceDeleteTimeout v = wrapInt64 (n * timeMinute) := by
      simp [updateInstanceDeleteTimeout, getTimeout, hne, hp]
    refine ⟨hval, fun hlo hhi => ?_⟩
    rw [hval, wrapInt64_eq_self hlo hhi]
  · intro h
    by_cases hv : v = ""
    · simp only [updateInstanceDeleteTimeout, getTimeout, hv, timeoutInstanceDelete]
      decide
    · rcases h with h | h
      · exact absurd h hv
      · simp only [updateInstanceDeleteTimeout, getTimeout, hv, h, timeoutInstanceDelete,
          ite_self]
        decide

/-- Witness for C7: a present parseable value (7 minutes, whose minute
product is representable) and an unparsable value (falling back to 5
minutes). -/
theorem c7_witness :
    updateInstanceDeleteTimeout "7" = 7 * timeMinute ∧
    updateInstanceDeleteTimeout "bogus" = 5 * timeMinute :=
  ⟨((c7_update_delete_timeout "7").1 7 (by decide) (by decide)).2 (by decide) (by decide),
   (c7_update_delete_timeout "bogus").2 (Or.inr (by decide))⟩

/-- Claim C3: the update-diff evaluator requires recreation exactly when
either reference is absent, or the spec-embedded (non-status) metadata
differs, or the raw provider-spec payloads differ, or the names differ; two
records that differ only in their status blocks never require recreation. -/
theorem c3_requiresUpdate_spec :
    (∀ a b : Option Machine,
      requiresUpdate a b = true ↔
        a = none ∨ b = none ∨
          ∃ x y, a = some x ∧ b = some y ∧
            (x.specMeta ≠ y.specMeta ∨ x.rawProviderSpec ≠ y.rawProviderSpec ∨
              x.name ≠ y.name)) ∧
    (∀ x y : Machine, x.name = y.name → x.ns = y.ns → x.labels = y.labels →
      x.anns = y.anns → x.specMeta = y.specMeta → x.rawProviderSpec = y.rawProviderSpec →
      x.providerSpec = y.providerSpec → requiresUpdate (some x) (some y) = false) := by
  constructor
  · intro a b
    cases a with
    | none => simp [requiresUpdate]
    | some x =>
      cases b with
      | none => simp [requiresUpdate]
      | some y =>
        simp only [requiresUpdate, Bool.or_eq_true, Bool.not_eq_true', beq_eq_false_iff_ne,
          ne_eq, reduceCtorEq, Option.some.injEq, false_or]
        constructor
        · intro h
          exact ⟨x, y, rfl, rfl, by tauto⟩
        · rintro ⟨x', y', hx, hy, h⟩
          cases hx; cases hy; tauto
  · intro x y h1 h2 h3 h4 h5 h6 h7
    simp [requiresUpdate, h1, h5, h6]

/-- Witness for C3: two machine records equal except for their status blocks
(differing addresses and error message) do not require recreation. -/
theorem c3_witness :
    requiresUpdate
      (some ⟨"m0", "ns", [], [], ⟨[], []⟩, "raw", .error ⟨"e"⟩, ⟨none, none, []⟩⟩)
      (some ⟨"m0", "ns", [], [], ⟨[], []⟩, "raw", .error ⟨"e"⟩,
        ⟨some .createError, some "boom", [⟨"InternalIP", "10.0.0.1"⟩]⟩⟩) = false :=
  c3_requiresUpdate_spec.2 _ _ rfl rfl rfl rfl rfl rfl rfl

/-- Claim C10: an instance with a parseable top-level access-IPv4 yields a
single-entry address map keyed by the empty string, independently of the
per-network address lists, and the primary-address resolver returns that
address through the single-network shortcut with no collaborator call. -/
theorem c10_accessIPv4_shortcut (inst : Instance)
    (h : goParseIPOk inst.accessIPv4 = true) :
    getIPsFromInstance inst = .ok [("", inst.accessIPv4)] ∧
    (∀ addrs, getIPsFromInstance { inst with addresses := addrs } =
      .ok [("", inst.accessIPv4)]) ∧
    (∀ env m cin, getPrimaryMachineIP env [("", inst.accessIPv4)] m cin =
      (.ok inst.accessIPv4, [])) := by
  refine ⟨getIPs_accessIPv4 inst h, fun addrs => ?_, fun env m cin => ?_⟩
  · exact getIPs_accessIPv4 { inst with addresses := addrs } h
  · exact getPrimaryMachineIP_singleton env "" inst.accessIPv4 m cin

/-- Witness for C10: a concrete instance with access-IPv4 `10.0.0.5` and a
non-empty per-network list that is ignored. -/
theorem c10_witness :
    getIPsFromInstance
      { id := "i", name := "n", image := "img", flavor := "f", status := "ACTIVE",
        az := "az", accessIPv4 := "10.0.0.5",
        addresses := [("net-a", [⟨"192.168.0.9", 4, "fixed"⟩])] } =
      .ok [("", "10.0.0.5")] :=
  (c10_accessIPv4_shortcut _ (by decide)).1

/-- The outcome of the final address-map lookup of the resolver. -/
def primaryLookup (mapAddr : List (String × String)) (nwName mName : String) :
    Except Err String :=
  match mapAddr.find? (fun p => p.1 == nwName) with
  | some p => .ok p.2
  | none => .error (.goErr ("No primary network was found for the machine " ++ mName))

/-- Claim C2: the primary-address resolver follows exactly the order
single-entry shortcut (no collaborator call), then explicit primary subnet
(resolved to its owning network), then the legacy
`<clusterInfraName>-primaryClusterNetwork` tag (erroring on zero or more
than one match), and finally a selected network name absent from the address
map is an error. -/
theorem c2_primary_ip_order (env : Env) (m : Machine) (cin : String) :
    (∀ k a, getPrimaryMachineIP env [(k, a)] m cin = (.ok a, [])) ∧
    (∀ mapAddr cfg sn nw, mapAddr.length ≠ 1 → m.providerSpec = .ok cfg →
      cfg.primarySubnet ≠ "" → env.providerClientRes = .ok () →
      env.networkClientRes = .ok () → env.subnetGetRes = .ok sn →
      env.networkGetRes = .ok nw →
      getPrimaryMachineIP env mapAddr m cin =
        (primaryLookup mapAddr nw.name m.name,
         [.getProviderClientCall, .newNetworkClient, .subnetGet cfg.primarySubnet,
          .networkGet sn.networkID])) ∧
    (∀ mapAddr cfg, mapAddr.length ≠ 1 → m.providerSpec = .ok cfg →
      cfg.primarySubnet = "" → env.providerClientRes = .ok () →
      env.networkClientRes = .ok () →
      (getPrimaryMachineIP env mapAddr m cin).2 =
        [.getProviderClientCall, .newNetworkClient,
         .networksListByTag (cin ++ "-primaryClusterNetwork")] ∧
      (env.listByTagRes = .ok [] → ∃ e, (getPrimaryMachineIP env mapAddr m cin).1 = .error e) ∧
      (∀ n1 n2 rest, env.listByTagRes = .ok (n1 :: n2 :: rest) →
        ∃ e, (getPrimaryMachineIP env mapAddr m cin).1 = .error e) ∧
      (∀ nw, env.listByTagRes = .ok [nw] →
        (getPrimaryMachineIP env mapAddr m cin).1 = primaryLookup mapAddr nw.name m.name)) := by
  refine ⟨fun k a => rfl, ?_, ?_⟩
  · intro mapAddr cfg sn nw hlen hspec hsub hpc hnc hsn hnw
    match mapAddr with
    | [(k, a)] => exact absurd rfl hlen
    | [] =>
      simp [getPrimaryMachineIP, hspec, hsub, hpc, hnc, getNetworkBySubnet, hsn, hnw,
        primaryLookup, List.find?]
    | p :: q :: rest =>
      rcases hf : List.find? (fun r => r.1 == nw.name) (p :: q :: rest) with _ | pr <;>
        simp [getPrimaryMachineIP, hspec, hsub, hpc, hnc, getNetworkBySubnet, hsn, hnw,
          primaryLookup, hf]
  · intro mapAddr cfg hlen hspec hsub hpc hnc
    match mapAddr, hlen with
    | [], _ =>
      cases hlb : env.listByTagRes with
      | error e =>
        simp [getPrimaryMachineIP, hspec, hsub, hpc, hnc, getNetworkByPrimaryNetworkTag, hlb,
          primaryLookup, List.find?]
      | ok nws =>
        match nws with
        | [] =>
          simp [getPrimaryMachineIP, hspec, hsub, hpc, hnc, getNetworkByPrimaryNetworkTag,
            hlb, primaryLookup, List.find?]
        | [nw] =>
          simp [getPrimaryMachineIP, hspec, hsub, hpc, hnc, getNetworkByPrimaryNetworkTag,
            hlb, primaryLookup, List.find?]
        | n1 :: n2 :: rest =>
          simp [getPrimaryMachineIP, hspec, hsub, hpc, hnc, getNetworkByPrimaryNetworkTag,
            hlb, primaryLookup, List.find?]
    | p :: q :: rest, _ =>
      cases hlb : env.listByTagRes with
      | error e =>
        simp [getPrimaryMachineIP, hspec, hsub, hpc, hnc, getNetworkByPrimaryNetworkTag, hlb,
          primaryLookup]
      | ok nws =>
        match nws with
        | [] =>
          simp [getPrimaryMachineIP, hspec, hsub, hpc, hnc, getNetworkByPrimaryNetworkTag,
            hlb, primaryLookup]
        | [nw] =>
          rcases hf : List.find? (fun r => r.1 == nw.name) (p :: q :: rest) with _ | pr <;>
            simp [getPrimaryMachineIP, hspec, hsub, hpc, hnc, getNetworkByPrimaryNetworkTag,
              hlb, primaryLookup, hf]
        | n1 :: n2 :: rest' =>
          simp [getPrimaryMachineIP, hspec, hsub, hpc, hnc, getNetworkByPrimaryNetworkTag,
            hlb, primaryLookup]

/-! ### Concrete fixtures used by the witnesses -/

/-- A decoded provider spec for the concrete runs below. -/
def specOk : ProviderSpec :=
  ⟨"img", "m1", "az1", "", "", none, false⟩

/-- A machine whose cluster-membership label matches `mycluster`. -/
def mOk : Machine :=
  ⟨"worker-0", "openshift-machine-api", [(clusterLabelKey, "mycluster")], [],
    ⟨[], []⟩, "raw", .ok specOk, ⟨none, none, []⟩⟩

/-- An all-success collaborator environment over an empty cloud. -/
def envOk : Env where
  hasClient := true
  regionName := "r1"
  infraGetRes := .ok "mycluster"
  providerClientRes := .ok ()
  computeServiceRes := .ok ()
  networkServiceRes := .ok ()
  networkClientRes := .ok ()
  instanceServiceRes := .ok ()
  imageExistsRes := .ok ()
  flavorExistsRes := .ok ()
  azExistsRes := .ok ()
  world := []
  instanceStatusLookupErr := none
  instanceListErr := none
  secretGetRes := .ok [(userDataKey, "#!/bin/sh")]
  masterScriptRes := .ok "master-script"
  nodeScriptRes := .ok "node-script"
  genTokenRes := .ok ()
  tokenID := "abcdef"
  tokenSecretVal := "0123456789abcdef"
  persistTokenRes := .ok ()
  ctRes := .ok "ignition"
  newOsMachineRes := .ok ()
  createInstanceRes := .ok ()
  newInstanceId := "id-1"
  newInstanceStatus := "ACTIVE"
  newInstanceAZ := "az1"
  newInstanceAccessIPv4 := "10.0.0.5"
  newInstanceAddresses := []
  fipRes := .ok ()
  mgmtPortRes := .ok ()
  associateRes := .ok ()
  clientUpdateRes := .ok ()
  statusUpdateRes := .ok ()
  updateInstanceStatusRes := .ok ()
  subnetGetRes := .ok ⟨"subnet-1", "net-id-b"⟩
  networkGetRes := .ok ⟨"net-id-b", "net-b"⟩
  listByTagRes := .ok [⟨"net-id-b", "net-b"⟩]
  deleteInstanceRes := .ok ()

/-- Witness for C2: the single-network shortcut on a concrete map, and the
subnet path picking `net-b` out of a two-network map. -/
theorem c2_witness :
    getPrimaryMachineIP envOk [("net-a", "10.0.0.5")] mOk "ci" = (.ok "10.0.0.5", []) ∧
    (getPrimaryMachineIP envOk [("net-a", "10.0.0.5"), ("net-b", "192.168.0.9")]
      { mOk with providerSpec := .ok { specOk with primarySubnet := "subnet-1" } } "ci").1 =
      .ok "192.168.0.9" := by
  constructor
  · exact (c2_primary_ip_order envOk mOk "ci").1 "net-a" "10.0.0.5"
  · rw [(c2_primary_ip_order envOk _ "ci").2.1 [("net-a", "10.0.0.5"), ("net-b", "192.168.0.9")]
      { specOk with primarySubnet := "subnet-1" } ⟨"subnet-1", "net-id-b"⟩ ⟨"net-id-b", "net-b"⟩
      (by decide) rfl (by decide) rfl rfl rfl rfl]
    decide

/-- Claim C5: when the name-based lookup finds no live instance, Delete
succeeds without issuing a delete to the compute collaborator and without
mutating the machine record or the cloud state. -/
theorem c5_delete_noop (env : Env) (ctx : Ctx) (m : Machine)
    (h1 : env.providerClientRes = .ok ())
    (h2 : env.computeServiceRes = .ok ())
    (h3 : getInstanceStatusByName env env.world m.name = .ok none) :
    deleteMachine env ctx m =
      ⟨.ok (), m, env.world,
        [.getProviderClientCall, .newComputeService, .instanceStatusByName m.name]⟩ := by
  simp [deleteMachine, h1, h2, h3]

/-- Witness for C5: Delete over an empty cloud is a no-op returning success. -/
theorem c5_witness :
    deleteMachine envOk .external mOk =
      ⟨.ok (), mOk, [],
        [.getProviderClientCall, .newComputeService, .instanceStatusByName "worker-0"]⟩ :=
  c5_delete_noop envOk .external mOk rfl rfl rfl

/-- A successful validation implies the provider spec decoded successfully. -/
theorem validateMachine_spec_ok {env : Env} {m : Machine}
    (h : validateMachine env m = .ok ()) : ∃ spec, m.providerSpec = .ok spec := by
  cases hps : m.providerSpec with
  | error e => simp [validateMachine, hps] at h
  | ok s => exact ⟨s, rfl⟩

/-- Claim C1: when the machine's annotations already carry a previously
recorded instance identifier (a non-empty instance-status annotation) and the
name-based lookup finds no live instance, Create fails with a validation
error (invalid-configuration machine error), never calls the compute
collaborator's create, and leaves the cloud state unchanged. -/
theorem c1_no_resurrection (env : Env) (ctx : Ctx) (m : Machine) (cin : String)
    (h1 : env.infraGetRes = .ok cin)
    (h2 : mapGet m.labels clusterLabelKey = cin)
    (h3 : env.providerClientRes = .ok ())
    (h4 : env.computeServiceRes = .ok ())
    (h5 : env.networkServiceRes = .ok ())
    (h6 : validateMachine env m = .ok ())
    (h7 : getInstanceStatusByName env env.world m.name = .ok none)
    (h8 : mapGet m.anns instanceStatusKey ≠ "")
    (h9 : env.hasClient = false ∨ env.clientUpdateRes = .ok ()) :
    (createMachine env ctx m).res =
      .error (.machineErr .invalidConfiguration
        "the instance has been destroyed for the machine, cannot recreate it") ∧
    (∀ n, Effect.createInstanceCall n ∉ (createMachine env ctx m).trace) ∧
    (createMachine env ctx m).world = env.world := by
  obtain ⟨spec, hspec⟩ := validateMachine_spec_ok h6
  cases hc : env.hasClient with
  | false =>
    refine ⟨?_, ?_, ?_⟩ <;>
      simp [createMachine, h1, h2, h3, h4, h5, hspec, h6, h7, h8, handleMachineError, hc]
  | true =>
    rcases h9 with h9 | h9
    · rw [hc] at h9; cases h9
    · refine ⟨?_, ?_, ?_⟩ <;>
        simp [createMachine, h1, h2, h3, h4, h5, hspec, h6, h7, h8, handleMachineError, hc, h9]

/-- Witness for C1: a machine annotated with a recorded instance status over
an empty cloud; Create refuses with an invalid-configuration error. -/
theorem c1_witness :
    (createMachine envOk .external
      { mOk with anns := [(instanceStatusKey, "machine:worker-0")] }).res =
      .error (.machineErr .invalidConfiguration
        "the instance has been destroyed for the machine, cannot recreate it") :=
  (c1_no_resurrection envOk .external
    { mOk with anns := [(instanceStatusKey, "machine:worker-0")] } "mycluster"
    rfl rfl rfl rfl rfl rfl rfl (by decide) (Or.inr rfl)).1

/-- Claim C6: with configured user data, templating enabled and a non-empty
payload, the pipeline renders the control-plane (master) script exactly when
the machine's control-identity marker — the name field checked by the code —
is non-empty; otherwise it renders the worker (node) script embedding the
freshly minted `id.secret` bootstrap token. -/
theorem c6_userdata_render (env : Env) (m : Machine) (spec : ProviderSpec)
    (ref : SecretRef) (data : List (String × String)) (ms ns : String)
    (h1 : spec.userDataSecret = some ref)
    (h2 : ref.name ≠ "")
    (h3 : env.secretGetRes = .ok data)
    (h4 : mapHas data userDataKey = true)
    (h5 : mapGet data userDataKey ≠ "")
    (h6 : mapHas data disableTemplatingKey = false)
    (h7 : mapHas data postprocessorKey = false)
    (h8 : env.masterScriptRes = .ok ms)
    (h9 : env.genTokenRes = .ok ())
    (h10 : env.persistTokenRes = .ok ())
    (h11 : env.nodeScriptRes = .ok ns) :
    (m.name ≠ "" →
      (getUserData env m spec).1 = .ok ms ∧
      Effect.renderMasterScript ∈ (getUserData env m spec).2.2 ∧
      (∀ tk, Effect.renderNodeScript tk ∉ (getUserData env m spec).2.2) ∧
      Effect.generateToken ∉ (getUserData env m spec).2.2) ∧
    (m.name = "" →
      (getUserData env m spec).1 = .ok ns ∧
      Effect.generateToken ∈ (getUserData env m spec).2.2 ∧
      Effect.renderNodeScript (env.tokenID ++ "." ++ env.tokenSecretVal) ∈
        (getUserData env m spec).2.2 ∧
      Effect.renderMasterScript ∉ (getUserData env m spec).2.2) := by
  constructor
  · intro hname
    refine ⟨?_, ?_, ?_, ?_⟩ <;>
      simp [getUserData, h1, h2, h3, h4, h5, h6, h7, h8, hname]
  · intro hname
    refine ⟨?_, ?_, ?_, ?_⟩ <;>
      simp [getUserData, h1, h2, h3, h4, h5, h6, h7, h9, h10, h11, hname,
        createBootstrapToken]

/-- Witness for C6: a named machine renders the master script; an
empty-named machine renders the node script embedding the minted token. -/
theorem c6_witness :
    (getUserData envOk mOk { specOk with userDataSecret := some ⟨"ud", ""⟩ }).1 =
      .ok "master-script" ∧
    (getUserData envOk { mOk with name := "" }
        { specOk with userDataSecret := some ⟨"ud", ""⟩ }).1 = .ok "node-script" ∧
    Effect.renderNodeScript "abcdef.0123456789abcdef" ∈
      (getUserData envOk { mOk with name := "" }
        { specOk with userDataSecret := some ⟨"ud", ""⟩ }).2.2 := by
  refine ⟨?_, ?_, ?_⟩
  · exact ((c6_userdata_render envOk mOk _ ⟨"ud", ""⟩ [(userDataKey, "#!/bin/sh")]
      "master-script" "node-script" rfl (by decide) rfl (by decide) (by decide) (by decide)
      (by decide) rfl rfl rfl rfl).1 (by decide)).1
  · exact ((c6_userdata_render envOk { mOk with name := "" } _ ⟨"ud", ""⟩
      [(userDataKey, "#!/bin/sh")] "master-script" "node-script" rfl (by decide) rfl
      (by decide) (by decide) (by decide) (by decide) rfl rfl rfl rfl).2 rfl).1
  · exact ((c6_userdata_render envOk { mOk with name := "" } _ ⟨"ud", ""⟩
      [(userDataKey, "#!/bin/sh")] "master-script" "node-script" rfl (by decide) rfl
      (by decide) (by decide) (by decide) (by decide) rfl rfl rfl rfl).2 rfl).2.2.1

/-- The primary-address resolver never issues a status update. -/
theorem primaryIP_no_statusUpdate (env : Env) (mapAddr : List (String × String))
    (m : Machine) (cin : String) (c : Ctx) (a : List NodeAddress) :
    Effect.statusUpdate c a ∉ (getPrimaryMachineIP env mapAddr m cin).2 := by
  have hsubnet : ∀ sid, Effect.statusUpdate c a ∉ (getNetworkBySubnet env sid).2 := by
    intro sid
    unfold getNetworkBySubnet
    cases env.subnetGetRes with
    | error e => simp
    | ok sn => cases env.networkGetRes <;> simp
  have htag : ∀ tg, Effect.statusUpdate c a ∉ (getNetworkByPrimaryNetworkTag env tg).2 := by
    intro tg
    unfold getNetworkByPrimaryNetworkTag
    cases env.listByTagRes with
    | error e => simp
    | ok nws =>
      match nws with
      | [] => simp
      | [nw] => simp
      | n1 :: n2 :: r => simp
  unfold getPrimaryMachineIP
  split
  · simp
  · cases m.providerSpec with
    | error e => simp
    | ok cfg =>
      cases env.providerClientRes with
      | error e => simp
      | ok u =>
        cases env.networkClientRes with
        | error e => simp
        | ok u2 =>
          by_cases hsub : cfg.primarySubnet = ""
          · rcases hg : getNetworkByPrimaryNetworkTag env (cin ++ "-primaryClusterNetwork")
              with ⟨r, t1⟩
            have ht1 := htag (cin ++ "-primaryClusterNetwork")
            rw [hg] at ht1
            cases r with
            | error e => simp [hsub, hg, ht1]
            | ok pn =>
              rcases hf : List.find? (fun p => p.1 == pn.name) mapAddr with _ | pr <;>
                simp [hsub, hg, hf, ht1]
          · rcases hg : getNetworkBySubnet env cfg.primarySubnet with ⟨r, t1⟩
            have ht1 := hsubnet cfg.primarySubnet
            rw [hg] at ht1
            cases r with
            | error e => simp [hsub, hg, ht1]
            | ok pn =>
              rcases hf : List.find? (fun p => p.1 == pn.name) mapAddr with _ | pr <;>
                simp [hsub, hg, hf, ht1]

/-- Claim C8: in the annotation-recording step for a live instance, a status
update carrying the computed node address set is issued exactly when that set
differs from the one already stored in the machine's status. -/
theorem c8_status_update_iff (env : Env) (world : List Instance) (m : Machine)
    (iid cin : String) (spec : ProviderSpec) (inst : Instance) (rest : List Instance)
    (mapAddr : List (String × String)) (ip : String) (t1 : List Effect)
    (hspec : m.providerSpec = .ok spec)
    (hsvc : env.instanceServiceRes = .ok ())
    (hlist : env.instanceListErr = none)
    (hfilter : world.filter (fun i => i.name == m.name && i.image == spec.image &&
      i.flavor == spec.flavor) = inst :: rest)
    (hips : getIPsFromInstance inst = .ok mapAddr)
    (hip : getPrimaryMachineIP env mapAddr
      { m with anns := mapSet m.anns openstackIdKey iid } cin = (.ok ip, t1))
    (hcu : env.clientUpdateRes = .ok ()) :
    (∃ c a, Effect.statusUpdate c a ∈ (updateMachineAnn env world m iid cin).2.2) ↔
      m.status.addresses ≠ computedNodeAddresses ip m.name := by
  have hIE : instanceExists env world { m with anns := mapSet m.anns openstackIdKey iid } =
      (.ok (some inst), [.instanceListCall m.name spec.image spec.flavor]) := by
    simp [instanceExists, hspec, hsvc, hlist, hfilter]
  have hnos : ∀ c a, Effect.statusUpdate c a ∉ t1 := by
    intro c a
    have h := primaryIP_no_statusUpdate env mapAddr
      { m with anns := mapSet m.anns openstackIdKey iid } cin c a
    rw [hip] at h
    exact h
  unfold updateMachineAnn
  simp only [hIE, hips, hip, hcu]
  by_cases heq : m.status.addresses = computedNodeAddresses ip m.name
  · simp only [computedNodeAddresses] at heq
    cases huis : env.updateInstanceStatusRes with
    | error e =>
      simp [updateInstanceStatus, huis, heq, computedNodeAddresses]
      intro c a hmem
      exact hnos c a hmem
    | ok u =>
      simp [updateInstanceStatus, huis, heq, computedNodeAddresses]
      intro c a hmem
      exact hnos c a hmem
  · simp only [computedNodeAddresses] at heq
    cases hsu : env.statusUpdateRes with
    | error e =>
      simp [updateInstanceStatus, hsu, heq, computedNodeAddresses]
      exact ⟨Ctx.background, _, Or.inr ⟨rfl, rfl⟩⟩
    | ok u =>
      cases huis : env.updateInstanceStatusRes with
      | error e =>
        simp [updateInstanceStatus, hsu, huis, heq, computedNodeAddresses]
        exact ⟨Ctx.background, _, Or.inr ⟨rfl, rfl⟩⟩
      | ok u2 =>
        simp [updateInstanceStatus, hsu, huis, heq, computedNodeAddresses]
        exact ⟨Ctx.background, _, Or.inr ⟨rfl, rfl⟩⟩

/-- The live instance backing the concrete annotation-recording run below. -/
def instOk : Instance := ⟨"id-1", "worker-0", "img", "m1", "ACTIVE", "az1", "10.0.0.5", []⟩

/-- Witness for C8: over a concrete world holding `instOk`, the recorder's
status write happens exactly when the stored address set differs. -/
theorem c8_witness :
    (∃ c a, Effect.statusUpdate c a ∈
      (updateMachineAnn envOk [instOk] mOk "id-1" "mycluster").2.2) ↔
      mOk.status.addresses ≠ computedNodeAddresses "10.0.0.5" mOk.name :=
  c8_status_update_iff envOk [instOk] mOk "id-1" "mycluster" specOk instOk [] [("", "10.0.0.5")]
    "10.0.0.5" [] rfl rfl rfl (by decide) (by decide) rfl rfl

/-- The context a context-accepting external call received, if the effect is
one of the calls that take a Go context in the source. -/
def effectCtx : Effect → Option Ctx
  | .infraGet c => some c
  | .secretGet c _ _ => some c
  | .clientCreate c => some c
  | .clientUpdate c => some c
  | .statusUpdate c _ => some c
  | _ => none

/-- A machine with a configured user-data secret, used to exercise the
secret fetch during Create. -/
def mC9 : Machine :=
  ⟨"worker-0", "openshift-machine-api", [(clusterLabelKey, "mycluster")], [],
    ⟨[], []⟩, "raw", .ok { specOk with userDataSecret := some ⟨"ud", ""⟩ },
    ⟨none, none, []⟩⟩

/-- Claim C9 is refuted by the code: a Create invoked with the externally
supplied context still performs every context-accepting external call
(infrastructure fetch, secret fetch, machine-record update, status update)
with the unconditioned background context (`context.TODO()` in the source);
no call receives the external context. -/
theorem c9_background_contexts :
    Effect.infraGet Ctx.background ∈ (createMachine envOk Ctx.external mC9).trace ∧
    Effect.secretGet Ctx.background "openshift-machine-api" "ud" ∈
      (createMachine envOk Ctx.external mC9).trace ∧
    Effect.clientUpdate Ctx.background ∈ (createMachine envOk Ctx.external mC9).trace ∧
    (createMachine envOk Ctx.external mC9).trace.filterMap effectCtx ≠ [] ∧
    ∀ c ∈ (createMachine envOk Ctx.external mC9).trace.filterMap effectCtx,
      c = Ctx.background := by
  decide

theorem getUserData_noSecret (env : Env) (m : Machine) (spec : ProviderSpec)
    (h : spec.userDataSecret = none) : getUserData env m spec = (.ok "", m, []) := by
  simp [getUserData, h]

theorem validateMachine_service_ok {env : Env} {m : Machine}
    (h : validateMachine env m = .ok ()) : env.instanceServiceRes = .ok () := by
  obtain ⟨spec, hspec⟩ := validateMachine_spec_ok h
  cases hs : env.instanceServiceRes with
  | error e => simp [validateMachine, hspec, hs] at h
  | ok u => cases u; rfl

theorem updateMachineAnn_fields (env : Env) (world : List Instance) (m : Machine)
    (iid cin : String) :
    (updateMachineAnn env world m iid cin).2.1.name = m.name ∧
    (updateMachineAnn env world m iid cin).2.1.labels = m.labels ∧
    (updateMachineAnn env world m iid cin).2.1.providerSpec = m.providerSpec := by
  simp only [updateMachineAnn]
  rcases hIE : instanceExists env world
      ⟨m.name, m.ns, m.labels, mapSet m.anns openstackIdKey iid, m.specMeta,
        m.rawProviderSpec, m.providerSpec, m.status⟩ with ⟨e | oinst, t0⟩
  · simp [hIE]
  · cases oinst with
    | none => simp [hIE]
    | some inst =>
      rcases hG : getIPsFromInstance inst with e2 | mapAddr
      · simp [hIE, hG]
      · rcases hP : getPrimaryMachineIP env mapAddr
            ⟨m.name, m.ns, m.labels, mapSet m.anns openstackIdKey iid, m.specMeta,
              m.rawProviderSpec, m.providerSpec, m.status⟩ cin with ⟨e3 | pip, t1⟩
        · simp [hIE, hG, hP]
        · cases hc : env.clientUpdateRes with
          | error ue => simp [hIE, hG, hP, hc]
          | ok u =>
            simp only [hIE, hG, hP, hc]
            split
            · cases hsu : env.statusUpdateRes with
              | error se => simp [hsu]
              | ok u2 =>
                cases huis : env.updateInstanceStatusRes <;>
                  simp [updateInstanceStatus, huis, hsu]
            · cases huis : env.updateInstanceStatusRes <;>
                simp [updateInstanceStatus, huis]

theorem createMachine_found_noop (env : Env) (ctx : Ctx) (m : Machine) (cin : String)
    (inst : Instance)
    (h1 : env.infraGetRes = .ok cin)
    (h2 : mapGet m.labels clusterLabelKey = cin)
    (h3 : env.providerClientRes = .ok ())
    (h4 : env.computeServiceRes = .ok ())
    (h5 : env.networkServiceRes = .ok ())
    (h6 : validateMachine env m = .ok ())
    (h7 : getInstanceStatusByName env env.world m.name = .ok (some inst)) :
    createMachine env ctx m =
      ⟨.ok (), m, env.world,
        [.infraGet .background, .getProviderClientCall, .newComputeService,
         .newNetworkService, .instanceStatusByName m.name]⟩ := by
  obtain ⟨spec, hspec⟩ := validateMachine_spec_ok h6
  simp [createMachine, h1, h2, h3, h4, h5, hspec, h6, h7]

theorem validateMachine_congr (env : Env) {m1 m2 : Machine}
    (h : m1.providerSpec = m2.providerSpec) :
    validateMachine env m1 = validateMachine env m2 := by
  unfold validateMachine
  rw [h]

theorem mkCreated_id (env : Env) (m : Machine) (spec : ProviderSpec) :
    (mkCreatedInstance env m spec).id = env.newInstanceId := rfl

theorem mkCreated_name (env : Env) (m : Machine) (spec : ProviderSpec) :
    (mkCreatedInstance env m spec).name = m.name := rfl

theorem mkCreated_image (env : Env) (m : Machine) (spec : ProviderSpec) :
    (mkCreatedInstance env m spec).image = spec.image := rfl

theorem mkCreated_flavor (env : Env) (m : Machine) (spec : ProviderSpec) :
    (mkCreatedInstance env m spec).flavor = spec.flavor := rfl

theorem mkCreated_az (env : Env) (m : Machine) (spec : ProviderSpec) :
    (mkCreatedInstance env m spec).az = env.newInstanceAZ := rfl

theorem mkCreated_accessIPv4 (env : Env) (m : Machine) (spec : ProviderSpec) :
    (mkCreatedInstance env m spec).accessIPv4 = env.newInstanceAccessIPv4 := rfl

theorem createMachine_fresh_then_noop (env : Env) (ctx : Ctx) (m : Machine) (cin : String)
    (spec : ProviderSpec)
    (h1 : env.infraGetRes = .ok cin)
    (h2 : mapGet m.labels clusterLabelKey = cin)
    (h3 : env.providerClientRes = .ok ())
    (h4 : env.computeServiceRes = .ok ())
    (h5 : env.networkServiceRes = .ok ())
    (hspec : m.providerSpec = .ok spec)
    (h6 : validateMachine env m = .ok ())
    (h7 : env.instanceStatusLookupErr = none)
    (h8 : env.world.filter (fun i => i.name == m.name) = [])
    (h9 : mapGet m.anns instanceStatusKey = "")
    (h10 : spec.userDataSecret = none)
    (h11 : env.newOsMachineRes = .ok ())
    (h12 : env.createInstanceRes = .ok ())
    (h13 : spec.floatingIP = "")
    (h14 : env.instanceListErr = none)
    (h15 : goParseIPOk env.newInstanceAccessIPv4 = true)
    (h16 : env.clientUpdateRes = .ok ())
    (h17 : env.statusUpdateRes = .ok ())
    (h18 : env.updateInstanceStatusRes = .ok ()) :
    (createMachine env ctx m).res = .ok () ∧
    (createMachine env ctx m).world = env.world ++ [mkCreatedInstance env m spec] ∧
    ((createMachine env ctx m).world.filter (fun i => i.name == m.name)).length = 1 ∧
    createMachine { env with world := (createMachine env ctx m).world } ctx
        (createMachine env ctx m).machine =
      ⟨.ok (), (createMachine env ctx m).machine, (createMachine env ctx m).world,
       [.infraGet .background, .getProviderClientCall, .newComputeService,
        .newNetworkService, .instanceStatusByName m.name]⟩ := by
  have hsvc := validateMachine_service_ok h6
  have h7x : getInstanceStatusByName env env.world m.name = .ok none := by
    simp [getInstanceStatusByName, h7, h8]
  have hm2 := setMachineLabels_fields m env.regionName env.newInstanceAZ spec.flavor
  have hfilter : (env.world ++ [mkCreatedInstance env m spec]).filter
      (fun i => i.name == (setMachineLabels m env.regionName env.newInstanceAZ spec.flavor).name &&
        i.image == spec.image && i.flavor == spec.flavor) = [mkCreatedInstance env m spec] := by
    rw [List.filter_append]
    have hn : env.world.filter
        (fun i => i.name == (setMachineLabels m env.regionName env.newInstanceAZ
          spec.flavor).name && i.image == spec.image && i.flavor == spec.flavor) = [] := by
      simp only [hm2.1]
      exact filter_and_nil env.world _ _
        (filter_and_nil env.world _ _ h8)
    rw [hn]
    simp [hm2.1, mkCreated_name, mkCreated_image, mkCreated_flavor]
  have hIE2 : instanceExists env (env.world ++ [mkCreatedInstance env m spec])
      ⟨(setMachineLabels m env.regionName env.newInstanceAZ spec.flavor).name,
        (setMachineLabels m env.regionName env.newInstanceAZ spec.flavor).ns,
        (setMachineLabels m env.regionName env.newInstanceAZ spec.flavor).labels,
        mapSet (setMachineLabels m env.regionName env.newInstanceAZ spec.flavor).anns
          openstackIdKey env.newInstanceId,
        (setMachineLabels m env.regionName env.newInstanceAZ spec.flavor).specMeta,
        (setMachineLabels m env.regionName env.newInstanceAZ spec.flavor).rawProviderSpec,
        (setMachineLabels m env.regionName env.newInstanceAZ spec.flavor).providerSpec,
        (setMachineLabels m env.regionName env.newInstanceAZ spec.flavor).status⟩ =
      (.ok (some (mkCreatedInstance env m spec)),
        [.instanceListCall (setMachineLabels m env.regionName env.newInstanceAZ spec.flavor).name
          spec.image spec.flavor]) := by
    simp only [instanceExists, hm2.2.2.1, hspec, hsvc, h14, hfilter, List.head?_cons]
  have hGI : getIPsFromInstance (mkCreatedInstance env m spec) =
      .ok [("", env.newInstanceAccessIPv4)] := by
    have h := getIPs_accessIPv4 (mkCreatedInstance env m spec) h15
    rwa [mkCreated_accessIPv4] at h
  have hannres : (updateMachineAnn env (env.world ++ [mkCreatedInstance env m spec])
      (setMachineLabels m env.regionName env.newInstanceAZ spec.flavor)
      env.newInstanceId cin).1 = .ok () := by
    simp only [updateMachineAnn, hIE2, hGI, getPrimaryMachineIP_singleton, h16]
    split <;> simp [h17, h18, updateInstanceStatus]
  have hres : (createMachine env ctx m).res = .ok () := by
    simp only [createMachine, h1, h2, h3, h4, h5, hspec, h6, h7x, h9, h13,
      getUserData_noSecret env m spec h10, h11, h12, mkCreated_az, mkCreated_id]
    simp [hannres, h2, h9, h13]
  have hworld : (createMachine env ctx m).world =
      env.world ++ [mkCreatedInstance env m spec] := by
    simp only [createMachine, h1, h2, h3, h4, h5, hspec, h6, h7x, h9, h13,
      getUserData_noSecret env m spec h10, h11, h12, mkCreated_az, mkCreated_id]
    simp [h2, h9, h13]
  have hmach : (createMachine env ctx m).machine =
      (updateMachineAnn env (env.world ++ [mkCreatedInstance env m spec])
        (setMachineLabels m env.regionName env.newInstanceAZ spec.flavor)
        env.newInstanceId cin).2.1 := by
    simp only [createMachine, h1, h2, h3, h4, h5, hspec, h6, h7x, h9, h13,
      getUserData_noSecret env m spec h10, h11, h12, mkCreated_az, mkCreated_id]
    simp [h2, h9, h13]
  have hflds := updateMachineAnn_fields env (env.world ++ [mkCreatedInstance env m spec])
    (setMachineLabels m env.regionName env.newInstanceAZ spec.flavor) env.newInstanceId cin
  have hname : (createMachine env ctx m).machine.name = m.name := by
    rw [hmach, hflds.1, hm2.1]
  have hlab : mapGet (createMachine env ctx m).machine.labels clusterLabelKey = cin := by
    rw [hmach, hflds.2.1, setMachineLabels_clusterLabel, h2]
  have hps : (createMachine env ctx m).machine.providerSpec = m.providerSpec := by
    rw [hmach, hflds.2.2, hm2.2.2.1]
  have hcount : ((createMachine env ctx m).world.filter
      (fun i => i.name == m.name)).length = 1 := by
    rw [hworld, List.filter_append, h8]
    simp [mkCreated_name]
  have hval2 : validateMachine { env with world := (createMachine env ctx m).world }
      (createMachine env ctx m).machine = .ok () := by
    have e1 : validateMachine { env with world := (createMachine env ctx m).world }
        (createMachine env ctx m).machine =
        validateMachine env (createMachine env ctx m).machine := rfl
    rw [e1, validateMachine_congr env hps, h6]
  have hlook2 : getInstanceStatusByName { env with world := (createMachine env ctx m).world }
      ({ env with world := (createMachine env ctx m).world } : Env).world
      (createMachine env ctx m).machine.name =
      .ok (some (mkCreatedInstance env m spec)) := by
    simp only [getInstanceStatusByName, h7, hname, hworld, List.filter_append, h8]
    simp [mkCreated_name]
  have happly := createMachine_found_noop
    { env with world := (createMachine env ctx m).world } ctx
    (createMachine env ctx m).machine cin (mkCreatedInstance env m spec)
    h1 hlab h3 h4 h5 hval2 hlook2
  refine ⟨hres, hworld, hcount, ?_⟩
  rw [happly, hname]

/-- Claim C4: when the name-based lookup finds a live instance, Create
returns success with no instance creation, no user-data rendering and no
machine mutation (an exact no-op); consequently a fresh Create followed by a
second Create with no intervening Delete leaves exactly one live instance
matching the machine's name and the second call succeeds as the same no-op. -/
theorem c4_create_idempotent :
    (∀ (env : Env) (ctx : Ctx) (m : Machine) (cin : String) (inst : Instance),
      env.infraGetRes = .ok cin → mapGet m.labels clusterLabelKey = cin →
      env.providerClientRes = .ok () → env.computeServiceRes = .ok () →
      env.networkServiceRes = .ok () → validateMachine env m = .ok () →
      getInstanceStatusByName env env.world m.name = .ok (some inst) →
      createMachine env ctx m =
        ⟨.ok (), m, env.world,
         [.infraGet .background, .getProviderClientCall, .newComputeService,
          .newNetworkService, .instanceStatusByName m.name]⟩) ∧
    (∀ (env : Env) (ctx : Ctx) (m : Machine) (cin : String) (spec : ProviderSpec),
      env.infraGetRes = .ok cin → mapGet m.labels clusterLabelKey = cin →
      env.providerClientRes = .ok () → env.computeServiceRes = .ok () →
      env.networkServiceRes = .ok () → m.providerSpec = .ok spec →
      validateMachine env m = .ok () → env.instanceStatusLookupErr = none →
      env.world.filter (fun i => i.name == m.name) = [] →
      mapGet m.anns instanceStatusKey = "" → spec.userDataSecret = none →
      env.newOsMachineRes = .ok () → env.createInstanceRes = .ok () →
      spec.floatingIP = "" → env.instanceListErr = none →
      goParseIPOk env.newInstanceAccessIPv4 = true → env.clientUpdateRes = .ok () →
      env.statusUpdateRes = .ok () → env.updateInstanceStatusRes = .ok () →
      (createMachine env ctx m).res = .ok () ∧
      (createMachine env ctx m).world = env.world ++ [mkCreatedInstance env m spec] ∧
      ((createMachine env ctx m).world.filter (fun i => i.name == m.name)).length = 1 ∧
      createMachine { env with world := (createMachine env ctx m).world } ctx
          (createMachine env ctx m).machine =
        ⟨.ok (), (createMachine env ctx m).machine, (createMachine env ctx m).world,
         [.infraGet .background, .getProviderClientCall, .newComputeService,
          .newNetworkService, .instanceStatusByName m.name]⟩) :=
  ⟨fun env ctx m cin inst h1 h2 h3 h4 h5 h6 h7 =>
    createMachine_found_noop env ctx m cin inst h1 h2 h3 h4 h5 h6 h7,
   fun env ctx m cin spec h1 h2 h3 h4 h5 hspec h6 h7 h8 h9 h10 h11 h12 h13 h14 h15
       h16 h17 h18 =>
    createMachine_fresh_then_noop env ctx m cin spec h1 h2 h3 h4 h5 hspec h6 h7 h8 h9
      h10 h11 h12 h13 h14 h15 h16 h17 h18⟩

/-- Witness for C4: a Create over a world already holding the instance is an
exact no-op, and a fresh Create over an empty world returns success. -/
theorem c4_witness :
    createMachine { envOk with world := [instOk] } .external mOk =
      ⟨.ok (), mOk, [instOk],
       [.infraGet .background, .getProviderClientCall, .newComputeService,
        .newNetworkService, .instanceStatusByName "worker-0"]⟩ ∧
    (createMachine envOk .external mOk).res = .ok () :=
  ⟨c4_create_idempotent.1 { envOk with world := [instOk] } .external mOk "mycluster" instOk
      rfl (by decide) rfl rfl rfl rfl (by decide),
   (c4_create_idempotent.2 envOk .external mOk "mycluster" specOk rfl (by decide) rfl rfl
      rfl rfl rfl rfl rfl rfl rfl rfl rfl rfl rfl (by decide) rfl rfl rfl).1⟩

end OSM
